import Mathlib

/-
Verification of the metrics-normalization, SLA-validation and
trend/severity engine of the k6-performance-observatory repository
(src/core/k6Runner.js `extractK6Metrics`, src/core/slaValidator.js
`validateAgainstSLA`, src/utils/reporter.js `saveToHistory` and the
comparison / alert-severity blocks of `generateHtmlReport`).

Modelling conventions:
* Numbers are rationals.  The JavaScript source computes with IEEE
  doubles, but every claim under study concerns fallback policy,
  ordering and control flow, not floating-point rounding.
* A JS value that may be `undefined` is an `Option`; reading a field
  of a possibly-absent object is a `match` on that `Option`.
* JS truthiness is modelled explicitly: for numbers `0` is falsy, for
  strings `""` is falsy, an object is always truthy.
* A JS relational comparison whose right operand is `undefined`
  evaluates to `false` (NaN comparison); `jsLeB`/`jsGeB` capture this.
* `Number.prototype.toFixed(2)` is modelled by `toFixed2`
  (round half up to two decimals, computed on the reduced fraction so
  that the kernel can evaluate it); `parseFloat` is modelled by
  `parseFloat` on decimal strings, returning `none` for NaN.
-/

/-! ## JavaScript semantics helpers -/

/-- JS `x || d` where `x : number | undefined` (both `undefined` and `0` are falsy). -/
def jsOrQ (x : Option ℚ) (d : ℚ) : ℚ :=
  match x with
  | none => d
  | some v => if v = 0 then d else v

/-- JS `x || d` where `x : string | undefined` (both `undefined` and `""` are falsy). -/
def jsStrOr (x : Option String) (d : String) : String :=
  match x with
  | none => d
  | some s => if s = "" then d else s

/-- JS truthiness of a `number | undefined` value. -/
def jsTruthyQ (x : Option ℚ) : Bool :=
  match x with
  | none => false
  | some v => v ≠ 0

/-- JS `x <= b` where the bound `b` may be `undefined`: comparison with
`undefined` coerces to NaN and is always `false`. -/
def jsLeB (x : ℚ) (b : Option ℚ) : Bool :=
  match b with
  | none => false
  | some v => decide (x ≤ v)

/-- JS `x <= b` where additionally the left operand may be NaN
(result of `parseFloat` on a non-numeric string): `false` in that case. -/
def jsLeOptB (x : Option ℚ) (b : Option ℚ) : Bool :=
  match x with
  | none => false
  | some v => jsLeB v b

/-- Two-digit zero padding used by the `toFixed` model. -/
def pad2 (n : ℕ) : String :=
  if n < 10 then "0" ++ toString n else toString n

/-- Model of JS `v.toFixed(2)`: round half up to two decimals.  The scaled
integer is computed directly from the reduced fraction
(`round (v * 100) = fdiv (200 * num + den) (2 * den)`) so that concrete
instances reduce in the kernel.  All values formatted by the pipeline are
non-negative; for them this agrees with JS rounding. -/
def toFixed2 (v : ℚ) : String :=
  let scaled : ℤ := Int.fdiv (v.num * 200 + (v.den : ℤ)) (2 * (v.den : ℤ))
  let a : ℕ := scaled.natAbs
  let s : String := toString (a / 100) ++ "." ++ pad2 (a % 100)
  if scaled < 0 then "-" ++ s else s

/-- Rendering of a rational in a JS template literal.  Integers agree with
JS exactly; a non-integral value is shown as `num/den` (the configuration
bounds interpolated by the source are integers, where this coincides with
the JS decimal rendering). -/
def ratToJsStr (q : ℚ) : String :=
  if q.den = 1 then toString q.num
  else toString q.num ++ "/" ++ toString q.den

/-- Rendering of a `number | undefined` bound in a template literal:
`undefined` prints as the string `undefined`. -/
def optBoundStr (b : Option ℚ) : String :=
  match b with
  | none => "undefined"
  | some q => ratToJsStr q

/-- Numeric value of a digit list (most significant first). -/
def digitsVal (cs : List Char) : ℕ :=
  cs.foldl (fun a c => a * 10 + (c.toNat - 48)) 0

/-- Model of JS `parseFloat` on the strings this pipeline stores
(plain decimal notation, optional sign, optional fractional part):
`none` models NaN.  Like JS it parses the longest numeric leading part
and fails only when no digit is consumed. -/
def parseFloat (s : String) : Option ℚ :=
  let cs := s.data
  let signed : Bool × List Char :=
    match cs with
    | '-' :: r => (true, r)
    | '+' :: r => (false, r)
    | _ => (false, cs)
  let ip := signed.2.takeWhile Char.isDigit
  let r1 := signed.2.dropWhile Char.isDigit
  let fp : List Char :=
    match r1 with
    | '.' :: r => r.takeWhile Char.isDigit
    | _ => []
  if ip.isEmpty && fp.isEmpty then none
  else
    let q : ℚ := mkRat ((digitsVal ip * 10 ^ fp.length + digitsVal fp : ℕ) : ℤ) (10 ^ fp.length)
    some (if signed.1 then -q else q)

/-- Does the character list starting here begin with the pattern? -/
def charsLead : List Char → List Char → Bool
  | [], _ => true
  | _ :: _, [] => false
  | a :: as, b :: bs => a == b && charsLead as bs

/-- Does the character list contain the pattern as a contiguous run? -/
def charsContain (pat : List Char) : List Char → Bool
  | [] => pat.isEmpty
  | c :: t => charsLead pat (c :: t) || charsContain pat t

/-- Model of JS `String.prototype.includes`. -/
def jsIncludes (s pat : String) : Bool :=
  charsContain pat.data s.data

/-! ## Raw payload data model (input of `extractK6Metrics`) -/

/-- The `http_req_duration` trend object of a k6 summary: each statistic
may be absent.  `p50`, `p90`, `p95`, `p99` stand for the JS fields
`p(50)`, `p(90)`, `p(95)`, `p(99)`. -/
structure TrendMetric where
  med : Option ℚ
  p50 : Option ℚ
  p90 : Option ℚ
  p95 : Option ℚ
  p99 : Option ℚ
  avg : Option ℚ
  min : Option ℚ
  max : Option ℚ
deriving DecidableEq

/-- A k6 rate-style metric carrying an optional `value` fraction
(`errors`, `http_req_failed`). -/
structure ValueMetric where
  value : Option ℚ
deriving DecidableEq

/-- The `http_reqs` counter metric. -/
structure ReqsMetric where
  rate : Option ℚ
  count : Option ℚ
deriving DecidableEq

/-- The `iterations` counter metric. -/
structure IterMetric where
  count : Option ℚ
deriving DecidableEq

/-- A custom duration metric (`browse_duration`, `api_duration`). -/
structure AvgMetric where
  avg : Option ℚ
deriving DecidableEq

/-- One raw check entry as found in the summary payload. -/
structure RawCheck where
  name : Option String
  passes : Option ℚ
  fails : Option ℚ
deriving DecidableEq

/-- The checks container of `root_group`: either a JSON array or a keyed
object (whose values, in insertion order, each carry a name). -/
inductive ChecksContainer where
  | arr (checks : List RawCheck)
  | obj (values : List RawCheck)
deriving DecidableEq

/-- The `root_group` object of a k6 summary. -/
structure RootGroup where
  checks : Option ChecksContainer
deriving DecidableEq

/-- The `metrics` container of a k6 summary; every sub-object may be absent. -/
structure MetricsContainer where
  http_req_duration : Option TrendMetric
  errors : Option ValueMetric
  http_req_failed : Option ValueMetric
  http_reqs : Option ReqsMetric
  iterations : Option IterMetric
  browse_duration : Option AvgMetric
  api_duration : Option AvgMetric
deriving DecidableEq

/-- A syntactically well-formed raw summary payload.  The `metrics`
container itself may be absent from the parsed object. -/
structure Summary where
  metrics : Option MetricsContainer
  root_group : Option RootGroup
deriving DecidableEq

/-! ## Canonical `MetricSet` (output of `extractK6Metrics`) -/

/-- One normalized check entry: the name is defaulted, the counters are
copied through unchanged from the payload (including absence). -/
structure CheckData where
  name : String
  passes : Option ℚ
  fails : Option ℚ
deriving DecidableEq

/-- Value of the `avgDur` field of an endpoint entry: the source stores
either the `toFixed(2)` string of the measured average or the number `0`
fallback. -/
inductive AvgDur where
  | str (s : String)
  | numZero
deriving DecidableEq

/-- One endpoint entry of the canonical metric model. -/
structure Endpoint where
  name : String
  avgDur : AvgDur
deriving DecidableEq

/-- Canonical per-run performance snapshot produced by `extractK6Metrics`. -/
structure MetricSet where
  p50ResponseTime : ℚ
  p90ResponseTime : ℚ
  p95ResponseTime : ℚ
  p99ResponseTime : ℚ
  avgResponseTime : ℚ
  minResponseTime : ℚ
  maxResponseTime : ℚ
  errorRate : ℚ
  throughput : ℚ
  totalRequests : ℚ
  iterations : ℚ
  checksData : List CheckData
  endpoints : List Endpoint
deriving DecidableEq

/-- The `value` of an optional rate metric if both the metric object and
its `value` field are present: models the guard
`summary.metrics.errors && summary.metrics.errors.value !== undefined`. -/
def jsValueOf (x : Option ValueMetric) : Option ℚ :=
  match x with
  | none => none
  | some vm => vm.value

/-- Normalization applied to each raw check (both container shapes use
the same body in the source). -/
def normalizeCheck (c : RawCheck) : CheckData :=
  { name := jsStrOr c.name "Unknown Check", passes := c.passes, fails := c.fails }

/-- Checks extraction: array branch, object branch (`Object.values`,
insertion order), empty fallback when the container is absent. -/
def checksOf (rg : Option RootGroup) : List CheckData :=
  match rg with
  | none => []
  | some g =>
    match g.checks with
    | none => []
    | some (.arr l) => l.map normalizeCheck
    | some (.obj l) => l.map normalizeCheck

/-- Endpoint extraction: only the two registered custom metric names are
read; `avg?.toFixed(2) || 0` keeps the formatted string when the average
was measured and falls back to the number `0` otherwise. -/
def endpointsOf (m : MetricsContainer) : List Endpoint :=
  (match m.browse_duration with
   | none => []
   | some bd =>
     [{ name := "GET /posts (Browse/List)",
        avgDur := match bd.avg with
          | some v => .str (toFixed2 v)
          | none => .numZero }]) ++
  (match m.api_duration with
   | none => []
   | some ad =>
     [{ name := "API Dynamic endpoints (GET/POST)",
        avgDur := match ad.avg with
          | some v => .str (toFixed2 v)
          | none => .numZero }])

/-- Body of `extractK6Metrics` once the `metrics` container has been
read successfully. -/
def extractFromMetrics (m : MetricsContainer) (rg : Option RootGroup) : MetricSet :=
  { p50ResponseTime :=
      match m.http_req_duration with
      | none => 0
      | some d => jsOrQ d.med (jsOrQ d.p50 0)
    p90ResponseTime :=
      match m.http_req_duration with
      | none => 0
      | some d => jsOrQ d.p90 0
    p95ResponseTime :=
      match m.http_req_duration with
      | none => 0
      | some d => jsOrQ d.p95 0
    p99ResponseTime :=
      match m.http_req_duration with
      | none => 0
      | some d => jsOrQ d.p99 0
    avgResponseTime :=
      match m.http_req_duration with
      | none => 0
      | some d => jsOrQ d.avg 0
    minResponseTime :=
      match m.http_req_duration with
      | none => 0
      | some d => jsOrQ d.min 0
    maxResponseTime :=
      match m.http_req_duration with
      | none => 0
      | some d => jsOrQ d.max 0
    errorRate :=
      match jsValueOf m.errors with
      | some v => v * 100
      | none =>
        match jsValueOf m.http_req_failed with
        | some w => w * 100
        | none => 0
    throughput :=
      match m.http_reqs with
      | none => 0
      | some r => jsOrQ r.rate 0
    totalRequests :=
      match m.http_reqs with
      | none => 0
      | some r => jsOrQ r.count 0
    iterations :=
      match m.iterations with
      | none => 0
      | some i => jsOrQ i.count 0
    checksData := checksOf rg
    endpoints := endpointsOf m }

/-- The only structural error the extractor can raise: reading
`summary.metrics.http_req_duration` when `summary.metrics` is absent
throws a TypeError in JS. -/
inductive JsError where
  | typeError
deriving DecidableEq

/-- Model of `extractK6Metrics` (src/core/k6Runner.js).  The function
dereferences `summary.metrics` unconditionally, so a payload without the
`metrics` container raises; with the container present it is total. -/
def extractK6Metrics (s : Summary) : Except JsError MetricSet :=
  match s.metrics with
  | none => .error .typeError
  | some m => .ok (extractFromMetrics m s.root_group)

/-! ## SLA configuration and `validateAgainstSLA` -/

/-- A performance threshold mapping (global defaults or one profile's
overrides): every key may be absent. -/
structure PerformanceSla where
  p50_response_time_ms : Option ℚ
  p90_response_time_ms : Option ℚ
  p95_response_time_ms : Option ℚ
  p99_response_time_ms : Option ℚ
  max_error_rate_percent : Option ℚ
  min_throughput_rps : Option ℚ
deriving DecidableEq

/-- The empty overrides object used when `slaConfig.profiles[runProfile]`
is absent (`|| {}`). -/
def emptyPerformanceSla : PerformanceSla :=
  { p50_response_time_ms := none
    p90_response_time_ms := none
    p95_response_time_ms := none
    p99_response_time_ms := none
    max_error_rate_percent := none
    min_throughput_rps := none }

/-- Infrastructure thresholds (`slaConfig.infrastructure`). -/
structure InfraSla where
  max_cpu_usage_percent : Option ℚ
  max_memory_usage_percent : Option ℚ
deriving DecidableEq

/-- The whole SLA configuration: global performance defaults, the
infrastructure bounds, and the per-profile overrides mapping. -/
structure SlaConfig where
  performance : PerformanceSla
  infrastructure : InfraSla
  profiles : List (String × PerformanceSla)
deriving DecidableEq

/-- Key set of a `PerformanceSla` mapping, for stating per-key laws. -/
inductive PerfKey where
  | p50 | p90 | p95 | p99 | maxErrorRate | minThroughput
deriving DecidableEq

/-- Per-key accessor of a `PerformanceSla` mapping. -/
def PerformanceSla.get (s : PerformanceSla) : PerfKey → Option ℚ
  | .p50 => s.p50_response_time_ms
  | .p90 => s.p90_response_time_ms
  | .p95 => s.p95_response_time_ms
  | .p99 => s.p99_response_time_ms
  | .maxErrorRate => s.max_error_rate_percent
  | .minThroughput => s.min_throughput_rps

/-- The spread overlay `{ ...defaults, ...overrides }`: a key present in
the overrides wins, an absent key keeps the default. -/
def mergePerformanceSla (defaults overrides : PerformanceSla) : PerformanceSla :=
  { p50_response_time_ms :=
      match overrides.p50_response_time_ms with
      | some v => some v
      | none => defaults.p50_response_time_ms
    p90_response_time_ms :=
      match overrides.p90_response_time_ms with
      | some v => some v
      | none => defaults.p90_response_time_ms
    p95_response_time_ms :=
      match overrides.p95_response_time_ms with
      | some v => some v
      | none => defaults.p95_response_time_ms
    p99_response_time_ms :=
      match overrides.p99_response_time_ms with
      | some v => some v
      | none => defaults.p99_response_time_ms
    max_error_rate_percent :=
      match overrides.max_error_rate_percent with
      | some v => some v
      | none => defaults.max_error_rate_percent
    min_throughput_rps :=
      match overrides.min_throughput_rps with
      | some v => some v
      | none => defaults.min_throughput_rps }

/-- Resolution of the effective thresholds for a run:
`{ ...slaConfig.performance, ...(slaConfig.profiles[runProfile] || {}) }`. -/
def resolvePerformanceSla (cfg : SlaConfig) (runProfile : String) : PerformanceSla :=
  mergePerformanceSla cfg.performance
    ((List.lookup runProfile cfg.profiles).getD emptyPerformanceSla)

/-- The infrastructure metrics snapshot consumed by the validator: each
value is a numeric string or the sentinel string `N/A`. -/
structure InfraMetrics where
  avgCpuUsage : String
  avgMemoryUsage : String
deriving DecidableEq

/-- One evaluated metric of the validator's output list. -/
structure ValidationResult where
  metric : String
  actual : String
  threshold : String
  passed : Bool
deriving DecidableEq

/-- The throughput check block: emitted only when the resolved
`min_throughput_rps` bound is truthy (present and nonzero). -/
def throughputChecks (perf : PerformanceSla) (km : MetricSet) : List ValidationResult :=
  match perf.min_throughput_rps with
  | none => []
  | some v =>
    if v = 0 then []
    else
      [{ metric := "Throughput (req/s)"
         actual := toFixed2 km.throughput
         threshold := ">= " ++ ratToJsStr v
         passed := decide (v ≤ km.throughput) }]

/-- Model of `validateAgainstSLA` (src/core/slaValidator.js): the ordered
validation checklist.  The p95 and error-rate comparisons read the
resolved bound directly (no default), so an absent bound renders as
`undefined` and the comparison is `false`; p50/p90/p99 apply the falsy
defaults 200/400/1000; throughput is guarded by truthiness of its bound;
the infrastructure checks are guarded by the `N/A` sentinel. -/
def validateAgainstSLA (km : MetricSet) (infra : InfraMetrics) (runProfile : String)
    (cfg : SlaConfig) : List ValidationResult :=
  let perf := resolvePerformanceSla cfg runProfile
  [{ metric := "P50 Response Time (ms)"
     actual := toFixed2 km.p50ResponseTime
     threshold := "<= " ++ ratToJsStr (jsOrQ perf.p50_response_time_ms 200)
     passed := decide (km.p50ResponseTime ≤ jsOrQ perf.p50_response_time_ms 200) },
   { metric := "P90 Response Time (ms)"
     actual := toFixed2 km.p90ResponseTime
     threshold := "<= " ++ ratToJsStr (jsOrQ perf.p90_response_time_ms 400)
     passed := decide (km.p90ResponseTime ≤ jsOrQ perf.p90_response_time_ms 400) },
   { metric := "P95 Response Time (ms)"
     actual := toFixed2 km.p95ResponseTime
     threshold := "<= " ++ optBoundStr perf.p95_response_time_ms
     passed := jsLeB km.p95ResponseTime perf.p95_response_time_ms },
   { metric := "P99 Response Time (ms)"
     actual := toFixed2 km.p99ResponseTime
     threshold := "<= " ++ ratToJsStr (jsOrQ perf.p99_response_time_ms 1000)
     passed := decide (km.p99ResponseTime ≤ jsOrQ perf.p99_response_time_ms 1000) },
   { metric := "Error Rate (%)"
     actual := toFixed2 km.errorRate
     threshold := "<= " ++ optBoundStr perf.max_error_rate_percent
     passed := jsLeB km.errorRate perf.max_error_rate_percent }] ++
  throughputChecks perf km ++
  (if infra.avgCpuUsage ≠ "N/A" then
    [{ metric := "CPU Usage (%)"
       actual := infra.avgCpuUsage
       threshold := "<= " ++ optBoundStr cfg.infrastructure.max_cpu_usage_percent
       passed := jsLeOptB (parseFloat infra.avgCpuUsage) cfg.infrastructure.max_cpu_usage_percent }]
   else []) ++
  (if infra.avgMemoryUsage ≠ "N/A" then
    [{ metric := "Memory Usage (%)"
       actual := infra.avgMemoryUsage
       threshold := "<= " ++ optBoundStr cfg.infrastructure.max_memory_usage_percent
       passed := jsLeOptB (parseFloat infra.avgMemoryUsage) cfg.infrastructure.max_memory_usage_percent }]
   else [])

/-! ## History store (`saveToHistory`) -/

/-- One per-metric record inside a persisted run entry. -/
structure HistMetricRecord where
  actual : String
  threshold : String
  passed : Bool
deriving DecidableEq

/-- One persisted run entry.  `id` and `timestamp` are time-derived in the
source and are inputs of the model; `metrics` is keyed by metric name in
insertion order. -/
structure RunEntry where
  id : String
  timestamp : String
  profile : String
  metrics : List (String × HistMetricRecord)
  passedCount : ℕ
  failedCount : ℕ
deriving DecidableEq

/-- Construction of the run entry appended by `saveToHistory`.  The
source fills `entry.metrics[r.metric]` per result; metric names are
distinct in every produced checklist, so ordered key-value pairs model
the object. -/
def mkRunEntry (results : List ValidationResult) (id timestamp profile : String) : RunEntry :=
  { id := id
    timestamp := timestamp
    profile := profile
    metrics := results.map fun r =>
      (r.metric, { actual := r.actual, threshold := r.threshold, passed := r.passed })
    passedCount := (results.filter (·.passed)).length
    failedCount := (results.filter (fun r => !r.passed)).length }

/-- The retention step of `saveToHistory`: `history.push(entry)` followed
by `if (history.length > 50) history = history.slice(-50)`
(`slice(-50)` keeps the last 50 elements). -/
def appendHistory (stored : List RunEntry) (entry : RunEntry) : List RunEntry :=
  let h := stored ++ [entry]
  if 50 < h.length then h.drop (h.length - 50) else h

/-! ## Run comparison (previous-run delta block of `generateHtmlReport`) -/

/-- One row of the run-comparison table.  `delta` is the exact percentage
change; the source formats it with `toFixed(1)` for display only. -/
structure Comparison where
  metric : String
  current : ℚ
  previous : ℚ
  delta : ℚ
  isImproved : Bool
deriving DecidableEq

/-- The comparison row produced for one metric key of the current entry:
skipped when the previous entry lacks the key, when either stored actual
does not parse as a number, or when the previous value is 0.  A decrease
is an improvement except for throughput keys, where an increase is. -/
def comparisonRow (previous : RunEntry) (kv : String × HistMetricRecord) : Option Comparison :=
  match List.lookup kv.1 previous.metrics with
  | none => none
  | some pm =>
    match parseFloat kv.2.actual, parseFloat pm.actual with
    | some currVal, some prevVal =>
      if prevVal = 0 then none
      else
        some { metric := kv.1
               current := currVal
               previous := prevVal
               delta := (currVal - prevVal) / prevVal * 100
               isImproved :=
                 if jsIncludes kv.1 "Throughput" then decide (prevVal < currVal)
                 else decide (currVal < prevVal) }
    | _, _ => none

/-- The comparison rows between the current and the previous run entry:
one candidate row per metric key of the current entry, in insertion
order. -/
def runComparisons (current previous : RunEntry) : List Comparison :=
  current.metrics.filterMap (comparisonRow previous)

/-- The comparison block guard: rows are produced only when the history
holds at least two entries, comparing the last entry (current run)
against the one before it. -/
def comparisonOfHistory (history : List RunEntry) : List Comparison :=
  match history.reverse with
  | current :: previous :: _ => runComparisons current previous
  | _ => []

/-! ## Alert severity (severity block of `generateHtmlReport`) -/

/-- One tier of the two-tier alert threshold table. -/
structure AlertTier where
  p95_response_time_ms : ℚ
  max_error_rate_percent : ℚ
deriving DecidableEq

/-- The two-tier alert threshold table (`slaConfig.alerts`). -/
structure AlertConfig where
  critical : AlertTier
  warning : AlertTier
deriving DecidableEq

/-- Severity classification levels. -/
inductive Severity where
  | healthy | warning | critical
deriving DecidableEq

/-- The severity classification: the critical tier is tested first, then
the warning tier; within a tier either p95 latency or the error rate
strictly exceeding its bound triggers the tier. -/
def severityOf (km : MetricSet) (ac : AlertConfig) : Severity :=
  if km.p95ResponseTime > ac.critical.p95_response_time_ms ∨
     km.errorRate > ac.critical.max_error_rate_percent then .critical
  else if km.p95ResponseTime > ac.warning.p95_response_time_ms ∨
          km.errorRate > ac.warning.max_error_rate_percent then .warning
  else .healthy

/-! ## Fixtures for witnesses and counterexamples -/

/-- A concrete canonical metric set (values of the repository's own
reporter test). -/
def kmFix : MetricSet :=
  { p50ResponseTime := 100, p90ResponseTime := 300, p95ResponseTime := 450
    p99ResponseTime := 900, avgResponseTime := 200, minResponseTime := 10
    maxResponseTime := 1200, errorRate := 1, throughput := 5
    totalRequests := 150, iterations := 150, checksData := [], endpoints := [] }

/-- Infrastructure snapshot with both values unavailable. -/
def infraNA : InfraMetrics := { avgCpuUsage := "N/A", avgMemoryUsage := "N/A" }

/-- A configuration whose global mapping lacks the mandatory p95 bound. -/
def cfgNoP95 : SlaConfig :=
  { performance :=
      { p50_response_time_ms := some 200
        p90_response_time_ms := some 400
        p95_response_time_ms := none
        p99_response_time_ms := some 1000
        max_error_rate_percent := some 1
        min_throughput_rps := none }
    infrastructure := { max_cpu_usage_percent := none, max_memory_usage_percent := none }
    profiles := [] }

/-- A configuration whose global mapping lacks the mandatory error-rate
bound. -/
def cfgNoErrRate : SlaConfig :=
  { performance :=
      { p50_response_time_ms := some 200
        p90_response_time_ms := some 400
        p95_response_time_ms := some 500
        p99_response_time_ms := some 1000
        max_error_rate_percent := none
        min_throughput_rps := none }
    infrastructure := { max_cpu_usage_percent := none, max_memory_usage_percent := none }
    profiles := [] }

/-- A profile overrides mapping that redefines the p95 bound. -/
def ovStress : PerformanceSla :=
  { p50_response_time_ms := none
    p90_response_time_ms := none
    p95_response_time_ms := some 500
    p99_response_time_ms := none
    max_error_rate_percent := none
    min_throughput_rps := none }

/-- A configuration with a stress profile override of the p95 bound. -/
def cfgWithStress : SlaConfig :=
  { performance :=
      { p50_response_time_ms := some 200
        p90_response_time_ms := some 400
        p95_response_time_ms := some 3000
        p99_response_time_ms := some 1000
        max_error_rate_percent := some 5
        min_throughput_rps := some 2 }
    infrastructure := { max_cpu_usage_percent := some 80, max_memory_usage_percent := some 85 }
    profiles := [("stress", ovStress)] }

/-- The alert table of the repository's default configuration. -/
def acFix : AlertConfig :=
  { critical := { p95_response_time_ms := 2000, max_error_rate_percent := 10 }
    warning := { p95_response_time_ms := 800, max_error_rate_percent := 3 } }

/-- A metric set whose p95 latency exceeds both alert tiers. -/
def kmBothTiers : MetricSet :=
  { kmFix with p95ResponseTime := 2500 }

/-- A run entry with a given id and no payload, for history fixtures. -/
def entryFix (id : String) : RunEntry :=
  { id := id, timestamp := "", profile := "default", metrics := []
    passedCount := 0, failedCount := 0 }

/-- A stored history holding exactly 50 run entries. -/
def storedFifty : List RunEntry :=
  (List.range 50).map fun i => entryFix (toString i)

/-- A configuration whose resolved minimum-throughput bound is the
number 0. -/
def cfgThroughputZero : SlaConfig :=
  { cfgWithStress with
    performance := { cfgWithStress.performance with min_throughput_rps := some 0 }
    profiles := [] }

/-- A configuration supplying the numeric bound 0 for p50 and a nonzero
350 ms override for p90. -/
def cfgP50Zero : SlaConfig :=
  { performance :=
      { p50_response_time_ms := some 0
        p90_response_time_ms := some 350
        p95_response_time_ms := some 500
        p99_response_time_ms := none
        max_error_rate_percent := some 1
        min_throughput_rps := none }
    infrastructure := { max_cpu_usage_percent := none, max_memory_usage_percent := none }
    profiles := [] }

/-- A metrics container with every sub-object absent. -/
def emptyContainer : MetricsContainer :=
  { http_req_duration := none, errors := none, http_req_failed := none
    http_reqs := none, iterations := none, browse_duration := none
    api_duration := none }

/-- A payload holding only an empty metrics container. -/
def emptySummary : Summary := { metrics := some emptyContainer, root_group := none }

/-- The all-zero canonical metric set. -/
def zeroMetricSet : MetricSet :=
  { p50ResponseTime := 0, p90ResponseTime := 0, p95ResponseTime := 0
    p99ResponseTime := 0, avgResponseTime := 0, minResponseTime := 0
    maxResponseTime := 0, errorRate := 0, throughput := 0
    totalRequests := 0, iterations := 0, checksData := [], endpoints := [] }

/-- A metrics container in which both the `errors` metric and the
`http_req_failed` metric carry a value. -/
def mBothRates : MetricsContainer :=
  { emptyContainer with
    errors := some { value := some 2 }
    http_req_failed := some { value := some 5 } }

/-- The payload wrapping `mBothRates`. -/
def sBothRates : Summary := { metrics := some mBothRates, root_group := none }

/-- The previous run entry of the delta-polarity example: p95 of 100 ms
and throughput of 10 req/s. -/
def pRunFix : RunEntry :=
  { id := "run-1", timestamp := "2024-01-01T00:00:00Z", profile := "default"
    metrics :=
      [("P95 Response Time (ms)", { actual := "100.00", threshold := "<= 1500", passed := true }),
       ("Throughput (req/s)", { actual := "10.00", threshold := ">= 2", passed := true })]
    passedCount := 2, failedCount := 0 }

/-- The current run entry of the delta-polarity example: p95 of 120 ms
and throughput of 12 req/s. -/
def cRunFix : RunEntry :=
  { id := "run-2", timestamp := "2024-01-01T01:00:00Z", profile := "default"
    metrics :=
      [("P95 Response Time (ms)", { actual := "120.00", threshold := "<= 1500", passed := true }),
       ("Throughput (req/s)", { actual := "12.00", threshold := ">= 2", passed := true })]
    passedCount := 2, failedCount := 0 }

/-! ## Helper lemmas -/

/-- Per-key reading of the spread overlay. -/
theorem mergePerformanceSla_get (defaults overrides : PerformanceSla) (k : PerfKey) :
    (mergePerformanceSla defaults overrides).get k =
      match overrides.get k with
      | some v => some v
      | none => defaults.get k := by
  cases k <;> rfl

/-- The metric-name projection of the validator output, by cases on the
three optional blocks. -/
theorem validateAgainstSLA_map_metric (km : MetricSet) (infra : InfraMetrics)
    (runProfile : String) (cfg : SlaConfig) :
    (validateAgainstSLA km infra runProfile cfg).map (·.metric) =
      ["P50 Response Time (ms)", "P90 Response Time (ms)", "P95 Response Time (ms)",
       "P99 Response Time (ms)", "Error Rate (%)"] ++
      (if jsTruthyQ (resolvePerformanceSla cfg runProfile).min_throughput_rps then
        ["Throughput (req/s)"] else []) ++
      (if infra.avgCpuUsage ≠ "N/A" then ["CPU Usage (%)"] else []) ++
      (if infra.avgMemoryUsage ≠ "N/A" then ["Memory Usage (%)"] else []) := by
  unfold validateAgainstSLA throughputChecks jsTruthyQ
  rcases h : (resolvePerformanceSla cfg runProfile).min_throughput_rps with _ | v
  · by_cases h1 : infra.avgCpuUsage = "N/A" <;>
      by_cases h2 : infra.avgMemoryUsage = "N/A" <;> simp [h, h1, h2]
  · by_cases hv : v = 0 <;>
      by_cases h1 : infra.avgCpuUsage = "N/A" <;>
        by_cases h2 : infra.avgMemoryUsage = "N/A" <;> simp [h, hv, h1, h2]

/-! ## C3 -/

/-- C3: for every global defaults mapping, per-profile overrides mapping
and profile name, the effective threshold for each metric key is the
profile override when the active profile defines the key, and the global
default otherwise (also when the profile has no overrides entry at all). -/
theorem claim_C3 (cfg : SlaConfig) (runProfile : String) (k : PerfKey) :
    (∀ ov, List.lookup runProfile cfg.profiles = some ov →
      (resolvePerformanceSla cfg runProfile).get k =
        match ov.get k with
        | some v => some v
        | none => cfg.performance.get k) ∧
    (List.lookup runProfile cfg.profiles = none →
      (resolvePerformanceSla cfg runProfile).get k = cfg.performance.get k) := by
  constructor
  · intro ov hov
    rw [resolvePerformanceSla, hov, Option.getD_some, mergePerformanceSla_get]
  · intro hnone
    rw [resolvePerformanceSla, hnone, Option.getD_none, mergePerformanceSla_get]
    cases k <;> rfl

/-- C3 witness: with the stress profile active, the effective p95 bound
is the override 500, not the global 3000; with an unknown profile name
the global default survives. -/
theorem claim_C3_witness :
    (resolvePerformanceSla cfgWithStress "stress").get .p95 = some 500 ∧
    (resolvePerformanceSla cfgWithStress "smoke").get .p95 = some 3000 :=
  ⟨(claim_C3 cfgWithStress "stress" .p95).1 ovStress (by decide),
   (claim_C3 cfgWithStress "smoke" .p95).2 (by decide)⟩

/-! ## C4 -/

/-- C4: severity classification checks the critical tier first, then the
warning tier, each triggered when the p95 latency or the error rate
strictly exceeds that tier's bound; an input exceeding both tiers is
Critical, never Warning. -/
theorem claim_C4 (km : MetricSet) (ac : AlertConfig) :
    (severityOf km ac = .critical ↔
      km.p95ResponseTime > ac.critical.p95_response_time_ms ∨
      km.errorRate > ac.critical.max_error_rate_percent) ∧
    (severityOf km ac = .warning ↔
      ¬ (km.p95ResponseTime > ac.critical.p95_response_time_ms ∨
         km.errorRate > ac.critical.max_error_rate_percent) ∧
      (km.p95ResponseTime > ac.warning.p95_response_time_ms ∨
       km.errorRate > ac.warning.max_error_rate_percent)) ∧
    (severityOf km ac = .healthy ↔
      ¬ (km.p95ResponseTime > ac.critical.p95_response_time_ms ∨
         km.errorRate > ac.critical.max_error_rate_percent) ∧
      ¬ (km.p95ResponseTime > ac.warning.p95_response_time_ms ∨
         km.errorRate > ac.warning.max_error_rate_percent)) ∧
    (km.p95ResponseTime > ac.warning.p95_response_time_ms →
     km.p95ResponseTime > ac.critical.p95_response_time_ms →
     severityOf km ac = .critical) := by
  unfold severityOf
  by_cases h1 : km.p95ResponseTime > ac.critical.p95_response_time_ms ∨
      km.errorRate > ac.critical.max_error_rate_percent
  · by_cases h2 : km.p95ResponseTime > ac.warning.p95_response_time_ms ∨
        km.errorRate > ac.warning.max_error_rate_percent <;>
      simp [h1, h2]
  · by_cases h2 : km.p95ResponseTime > ac.warning.p95_response_time_ms ∨
        km.errorRate > ac.warning.max_error_rate_percent <;>
      simp [h1, h2] <;> push_neg at h1 <;> exact fun _ => h1.1

/-- C4 witness: a p95 latency of 2500 ms exceeds both the 800 ms warning
bound and the 2000 ms critical bound and is classified Critical. -/
theorem claim_C4_witness : severityOf kmBothTiers acFix = .critical :=
  (claim_C4 kmBothTiers acFix).2.2.2 (by norm_num [kmBothTiers, kmFix, acFix])
    (by norm_num [kmBothTiers, kmFix, acFix])

/-! ## C6 -/

/-- C6: appending to a stored history of length 50 yields exactly 50
records with the oldest dropped and the new record appended; in general
the retention step drops from the front exactly when the length after
append exceeds 50 and is the identity append otherwise. -/
theorem claim_C6 (stored : List RunEntry) (entry : RunEntry) :
    (stored.length = 50 →
      appendHistory stored entry = stored.drop 1 ++ [entry] ∧
      (appendHistory stored entry).length = 50) ∧
    (50 < stored.length + 1 →
      appendHistory stored entry = (stored ++ [entry]).drop (stored.length + 1 - 50)) ∧
    (stored.length + 1 ≤ 50 → appendHistory stored entry = stored ++ [entry]) := by
  refine ⟨?_, ?_, ?_⟩
  · intro h50
    have hlen : (stored ++ [entry]).length = 51 := by simp [h50]
    have hdrop : appendHistory stored entry = (stored ++ [entry]).drop 1 := by
      rw [appendHistory]
      simp only [hlen]
      norm_num
    constructor
    · rw [hdrop, List.drop_append_of_le_length (by omega)]
    · rw [hdrop, List.length_drop, hlen]
  · intro hgt
    rw [appendHistory]
    simp only [List.length_append, List.length_singleton]
    rw [if_pos (by omega)]
  · intro hle
    rw [appendHistory]
    simp only [List.length_append, List.length_singleton]
    rw [if_neg (by omega)]

/-- C6 witness: appending a 51st record to a 50-record history keeps
exactly 50 records, dropping the oldest and keeping the new one. -/
theorem claim_C6_witness :
    appendHistory storedFifty (entryFix "new") = storedFifty.drop 1 ++ [entryFix "new"] ∧
    (appendHistory storedFifty (entryFix "new")).length = 50 :=
  (claim_C6 storedFifty (entryFix "new")).1 (by simp [storedFifty])

/-! ## C9 -/

/-- C9: the validator output is always in the fixed order P50, P90, P95,
P99 response times, then error rate, then the throughput check if
emitted, then the CPU and memory checks if emitted. -/
theorem claim_C9 (km : MetricSet) (infra : InfraMetrics) (runProfile : String)
    (cfg : SlaConfig) :
    (validateAgainstSLA km infra runProfile cfg).map (·.metric) =
      ["P50 Response Time (ms)", "P90 Response Time (ms)", "P95 Response Time (ms)",
       "P99 Response Time (ms)", "Error Rate (%)"] ++
      (if jsTruthyQ (resolvePerformanceSla cfg runProfile).min_throughput_rps then
        ["Throughput (req/s)"] else []) ++
      (if infra.avgCpuUsage ≠ "N/A" then ["CPU Usage (%)"] else []) ++
      (if infra.avgMemoryUsage ≠ "N/A" then ["Memory Usage (%)"] else []) :=
  validateAgainstSLA_map_metric km infra runProfile cfg

/-! ## C10 -/

/-- C10: a resolved minimum-throughput bound of 0 suppresses the
throughput check entirely, exactly like an absent bound; the check is
emitted exactly for a nonzero resolved bound. -/
theorem claim_C10 (km : MetricSet) (infra : InfraMetrics) (runProfile : String)
    (cfg : SlaConfig) :
    ((resolvePerformanceSla cfg runProfile).min_throughput_rps = some 0 →
      "Throughput (req/s)" ∉ ((validateAgainstSLA km infra runProfile cfg).map (·.metric))) ∧
    ((resolvePerformanceSla cfg runProfile).min_throughput_rps = none →
      "Throughput (req/s)" ∉ ((validateAgainstSLA km infra runProfile cfg).map (·.metric))) ∧
    (∀ v : ℚ, v ≠ 0 →
      (resolvePerformanceSla cfg runProfile).min_throughput_rps = some v →
      "Throughput (req/s)" ∈ ((validateAgainstSLA km infra runProfile cfg).map (·.metric))) := by
  refine ⟨?_, ?_, ?_⟩
  · intro h
    rw [validateAgainstSLA_map_metric]
    by_cases h1 : infra.avgCpuUsage = "N/A" <;>
      by_cases h2 : infra.avgMemoryUsage = "N/A" <;>
        simp [jsTruthyQ, h, h1, h2]
  · intro h
    rw [validateAgainstSLA_map_metric]
    by_cases h1 : infra.avgCpuUsage = "N/A" <;>
      by_cases h2 : infra.avgMemoryUsage = "N/A" <;>
        simp [jsTruthyQ, h, h1, h2]
  · intro v hv h
    rw [validateAgainstSLA_map_metric]
    simp [jsTruthyQ, h, hv]

/-- C10 witness: with a configured bound of 0 the checklist holds no
throughput entry; with the nonzero bound 2 it holds one. -/
theorem claim_C10_witness :
    "Throughput (req/s)" ∉
      ((validateAgainstSLA kmFix infraNA "default" cfgThroughputZero).map (·.metric)) ∧
    "Throughput (req/s)" ∈
      ((validateAgainstSLA kmFix infraNA "default" cfgWithStress).map (·.metric)) :=
  ⟨(claim_C10 kmFix infraNA "default" cfgThroughputZero).1 (by decide),
   (claim_C10 kmFix infraNA "default" cfgWithStress).2.2 2 (by norm_num) (by decide)⟩

/-! ## C1 -/

/-- C1 counterexample: with the mandatory p95 bound absent from the
resolved profile, the validator does not stop with a configuration
error; it produces an ordinary third checklist entry for the p95 metric
with `passed = false` and the threshold rendered `<= undefined`. -/
theorem claim_C1_counterexample :
    (resolvePerformanceSla cfgNoP95 "default").p95_response_time_ms = none ∧
    (validateAgainstSLA kmFix infraNA "default" cfgNoP95)[2]? =
      some { metric := "P95 Response Time (ms)", actual := "450.00",
             threshold := "<= undefined", passed := false } := by
  decide

/-- C1 amended: when a mandatory bound (p95 or error rate) is absent
from the resolved profile, no configuration error is surfaced; the
validator emits an ordinary `ValidationResult` for that metric whose
comparison against the absent bound evaluates to `false`, with the
threshold text `<= undefined`. -/
theorem claim_C1 (km : MetricSet) (infra : InfraMetrics) (runProfile : String)
    (cfg : SlaConfig) :
    ((resolvePerformanceSla cfg runProfile).p95_response_time_ms = none →
      (validateAgainstSLA km infra runProfile cfg)[2]? =
        some { metric := "P95 Response Time (ms)", actual := toFixed2 km.p95ResponseTime,
               threshold := "<= undefined", passed := false }) ∧
    ((resolvePerformanceSla cfg runProfile).max_error_rate_percent = none →
      (validateAgainstSLA km infra runProfile cfg)[4]? =
        some { metric := "Error Rate (%)", actual := toFixed2 km.errorRate,
               threshold := "<= undefined", passed := false }) := by
  constructor <;> intro h <;>
    simp [validateAgainstSLA, h, optBoundStr, jsLeB]

/-- C1 witness: a configuration lacking the mandatory error-rate bound
yields an ordinary failed fifth entry rather than a configuration error. -/
theorem claim_C1_witness :
    (validateAgainstSLA kmFix infraNA "default" cfgNoErrRate)[4]? =
      some { metric := "Error Rate (%)", actual := toFixed2 kmFix.errorRate,
             threshold := "<= undefined", passed := false } :=
  (claim_C1 kmFix infraNA "default" cfgNoErrRate).2 (by decide)

/-! ## C8 -/

/-- Concrete rendering of the default p50 bound. -/
theorem ratToJsStr_200 : ratToJsStr (200 : ℚ) = "200" := by decide

/-- Concrete rendering of the default p90 bound. -/
theorem ratToJsStr_400 : ratToJsStr (400 : ℚ) = "400" := by decide

/-- Concrete rendering of the default p99 bound. -/
theorem ratToJsStr_1000 : ratToJsStr (1000 : ℚ) = "1000" := by decide

/-- C8 counterexample: a configured p50 bound of 0 is falsy, so the
default 200 is used instead of the supplied bound — the first checklist
entry shows threshold 200 and passes at an actual of 100 ms, where the
supplied bound 0 would fail. -/
theorem claim_C8_counterexample :
    (resolvePerformanceSla cfgP50Zero "default").p50_response_time_ms = some 0 ∧
    (validateAgainstSLA kmFix infraNA "default" cfgP50Zero)[0]? =
      some { metric := "P50 Response Time (ms)", actual := "100.00",
             threshold := "<= 200", passed := true } := by
  decide

/-- C8 amended: the p50/p90/p99 checks use the defaults 200/400/1000 ms
exactly when the resolved bound for that percentile is absent or 0 (the
falsy guard); any nonzero supplied bound is the one used. -/
theorem claim_C8 (km : MetricSet) (infra : InfraMetrics) (runProfile : String)
    (cfg : SlaConfig) :
    (((resolvePerformanceSla cfg runProfile).p50_response_time_ms = none ∨
      (resolvePerformanceSla cfg runProfile).p50_response_time_ms = some 0) →
      (validateAgainstSLA km infra runProfile cfg)[0]? =
        some { metric := "P50 Response Time (ms)", actual := toFixed2 km.p50ResponseTime,
               threshold := "<= 200", passed := decide (km.p50ResponseTime ≤ 200) }) ∧
    (∀ v : ℚ, v ≠ 0 →
      (resolvePerformanceSla cfg runProfile).p50_response_time_ms = some v →
      (validateAgainstSLA km infra runProfile cfg)[0]? =
        some { metric := "P50 Response Time (ms)", actual := toFixed2 km.p50ResponseTime,
               threshold := "<= " ++ ratToJsStr v, passed := decide (km.p50ResponseTime ≤ v) }) ∧
    (((resolvePerformanceSla cfg runProfile).p90_response_time_ms = none ∨
      (resolvePerformanceSla cfg runProfile).p90_response_time_ms = some 0) →
      (validateAgainstSLA km infra runProfile cfg)[1]? =
        some { metric := "P90 Response Time (ms)", actual := toFixed2 km.p90ResponseTime,
               threshold := "<= 400", passed := decide (km.p90ResponseTime ≤ 400) }) ∧
    (∀ v : ℚ, v ≠ 0 →
      (resolvePerformanceSla cfg runProfile).p90_response_time_ms = some v →
      (validateAgainstSLA km infra runProfile cfg)[1]? =
        some { metric := "P90 Response Time (ms)", actual := toFixed2 km.p90ResponseTime,
               threshold := "<= " ++ ratToJsStr v, passed := decide (km.p90ResponseTime ≤ v) }) ∧
    (((resolvePerformanceSla cfg runProfile).p99_response_time_ms = none ∨
      (resolvePerformanceSla cfg runProfile).p99_response_time_ms = some 0) →
      (validateAgainstSLA km infra runProfile cfg)[3]? =
        some { metric := "P99 Response Time (ms)", actual := toFixed2 km.p99ResponseTime,
               threshold := "<= 1000", passed := decide (km.p99ResponseTime ≤ 1000) }) ∧
    (∀ v : ℚ, v ≠ 0 →
      (resolvePerformanceSla cfg runProfile).p99_response_time_ms = some v →
      (validateAgainstSLA km infra runProfile cfg)[3]? =
        some { metric := "P99 Response Time (ms)", actual := toFixed2 km.p99ResponseTime,
               threshold := "<= " ++ ratToJsStr v, passed := decide (km.p99ResponseTime ≤ v) }) := by
  refine ⟨?_, ?_, ?_, ?_, ?_, ?_⟩
  · rintro (h | h) <;>
      simp [validateAgainstSLA, jsOrQ, h, ratToJsStr_200]
  · intro v hv h
    simp [validateAgainstSLA, jsOrQ, h, hv]
  · rintro (h | h) <;>
      simp [validateAgainstSLA, jsOrQ, h, ratToJsStr_400]
  · intro v hv h
    simp [validateAgainstSLA, jsOrQ, h, hv]
  · rintro (h | h) <;>
      simp [validateAgainstSLA, jsOrQ, h, ratToJsStr_1000]
  · intro v hv h
    simp [validateAgainstSLA, jsOrQ, h, hv]

/-- C8 witness: with a nonzero p90 override of 350 the supplied bound is
used, and with no p99 bound anywhere the default 1000 is used. -/
theorem claim_C8_witness :
    (validateAgainstSLA kmFix infraNA "default" cfgP50Zero)[1]? =
      some { metric := "P90 Response Time (ms)", actual := toFixed2 kmFix.p90ResponseTime,
             threshold := "<= " ++ ratToJsStr 350, passed := decide (kmFix.p90ResponseTime ≤ 350) } ∧
    (validateAgainstSLA kmFix infraNA "default" cfgP50Zero)[3]? =
      some { metric := "P99 Response Time (ms)", actual := toFixed2 kmFix.p99ResponseTime,
             threshold := "<= 1000", passed := decide (kmFix.p99ResponseTime ≤ 1000) } :=
  ⟨(claim_C8 kmFix infraNA "default" cfgP50Zero).2.2.2.1 350 (by norm_num) (by decide),
   (claim_C8 kmFix infraNA "default" cfgP50Zero).2.2.2.2.1 (Or.inl (by decide))⟩

/-! ## C2 -/

/-- C2 counterexample: a syntactically well-formed payload lacking the
entire `metrics` container makes the extractor raise (the unguarded read
of `summary.metrics.http_req_duration` throws a TypeError), so
extraction is not total over all well-formed payloads. -/
theorem claim_C2_counterexample :
    extractK6Metrics { metrics := none, root_group := none } = .error .typeError :=
  rfl

/-- C2 amended: for every payload whose `metrics` container is present,
extraction terminates normally with a fully-populated metric set — no
missing sub-object or field raises: an absent duration sub-object zeroes
all seven latency fields, absent error metrics zero the error rate,
absent request and iteration counters zero their fields, and an absent
checks container (or absent `root_group`) yields an empty sequence. -/
theorem claim_C2 (s : Summary) (m : MetricsContainer) (hm : s.metrics = some m) :
    extractK6Metrics s = .ok (extractFromMetrics m s.root_group) ∧
    (m.http_req_duration = none →
      (extractFromMetrics m s.root_group).p50ResponseTime = 0 ∧
      (extractFromMetrics m s.root_group).p90ResponseTime = 0 ∧
      (extractFromMetrics m s.root_group).p95ResponseTime = 0 ∧
      (extractFromMetrics m s.root_group).p99ResponseTime = 0 ∧
      (extractFromMetrics m s.root_group).avgResponseTime = 0 ∧
      (extractFromMetrics m s.root_group).minResponseTime = 0 ∧
      (extractFromMetrics m s.root_group).maxResponseTime = 0) ∧
    (jsValueOf m.errors = none → jsValueOf m.http_req_failed = none →
      (extractFromMetrics m s.root_group).errorRate = 0) ∧
    (m.http_reqs = none →
      (extractFromMetrics m s.root_group).throughput = 0 ∧
      (extractFromMetrics m s.root_group).totalRequests = 0) ∧
    (m.iterations = none → (extractFromMetrics m s.root_group).iterations = 0) ∧
    (s.root_group = none → (extractFromMetrics m s.root_group).checksData = []) ∧
    (∀ g, s.root_group = some g → g.checks = none →
      (extractFromMetrics m s.root_group).checksData = []) := by
  refine ⟨by rw [extractK6Metrics, hm], ?_, ?_, ?_, ?_, ?_, ?_⟩
  · intro h
    simp [extractFromMetrics, h]
  · intro h1 h2
    simp [extractFromMetrics, h1, h2]
  · intro h
    simp [extractFromMetrics, h]
  · intro h
    simp [extractFromMetrics, h]
  · intro h
    simp [extractFromMetrics, checksOf, h]
  · intro g hg hc
    simp [extractFromMetrics, checksOf, hg, hc]

/-- C2 witness: the payload with an empty metrics container extracts
without error to the all-zero metric set. -/
theorem claim_C2_witness : extractK6Metrics emptySummary = .ok zeroMetricSet :=
  ((claim_C2 emptySummary emptyContainer rfl).1).trans
    (congrArg Except.ok (by decide))

/-! ## C7 -/

/-- C7: the extracted error rate prefers the explicit `errors` metric's
fractional value times 100 whenever that value is present (in particular
when `http_req_failed` also carries one); the `http_req_failed` value
times 100 is used only when the `errors` value is absent; with both
absent the error rate is 0. -/
theorem claim_C7 (s : Summary) (m : MetricsContainer) (ms : MetricSet)
    (hm : s.metrics = some m) (hok : extractK6Metrics s = .ok ms) :
    (∀ v, jsValueOf m.errors = some v → ms.errorRate = v * 100) ∧
    (jsValueOf m.errors = none →
      ∀ w, jsValueOf m.http_req_failed = some w → ms.errorRate = w * 100) ∧
    (jsValueOf m.errors = none → jsValueOf m.http_req_failed = none →
      ms.errorRate = 0) := by
  rw [extractK6Metrics, hm] at hok
  injection hok with hok
  subst hok
  refine ⟨?_, ?_, ?_⟩
  · intro v hv
    simp [extractFromMetrics, hv]
  · intro h1 w hw
    simp [extractFromMetrics, h1, hw]
  · intro h1 h2
    simp [extractFromMetrics, h1, h2]

/-- C7 witness: with both rate sources present (`errors` fraction 2,
`http_req_failed` fraction 5) the extracted error rate is 200, the
`errors` value times 100. -/
theorem claim_C7_witness :
    (extractFromMetrics mBothRates sBothRates.root_group).errorRate = 200 :=
  ((claim_C7 sBothRates mBothRates
      (extractFromMetrics mBothRates sBothRates.root_group) rfl rfl).1 2 rfl).trans
    (by norm_num)

/-! ## C5 -/

set_option maxRecDepth 4096 in
/-- Characterization of an emitted comparison row. -/
theorem comparisonRow_eq_some (previous : RunEntry) (kv : String × HistMetricRecord)
    (comp : Comparison) :
    comparisonRow previous kv = some comp ↔
      ∃ pm currVal prevVal,
        List.lookup kv.1 previous.metrics = some pm ∧
        parseFloat kv.2.actual = some currVal ∧
        parseFloat pm.actual = some prevVal ∧
        prevVal ≠ 0 ∧
        comp = { metric := kv.1, current := currVal, previous := prevVal
                 delta := (currVal - prevVal) / prevVal * 100
                 isImproved :=
                   if jsIncludes kv.1 "Throughput" then decide (prevVal < currVal)
                   else decide (currVal < prevVal) } := by
  rw [comparisonRow]
  rcases h1 : List.lookup kv.1 previous.metrics with _ | pm
  · simp [h1]
  · rcases h2 : parseFloat kv.2.actual with _ | currVal
    · simp [h1, h2]
    · rcases h3 : parseFloat pm.actual with _ | prevVal
      · simp [h1, h2, h3]
      · by_cases h4 : prevVal = 0
        · subst h4
          simp [h1, h2, h3]
        · simp only [h1, h2, h3, Option.some.injEq, if_neg h4]
          constructor
          · intro h
            exact ⟨pm, currVal, prevVal, rfl, rfl, h3, h4, h.symm⟩
          · rintro ⟨pm', currVal', prevVal', hpm', hcv', hpv', hprev', hcomp⟩
            obtain rfl : pm = pm' := hpm'
            obtain rfl : currVal = currVal' := hcv'
            obtain rfl : prevVal = prevVal' := by
              have h5 := h3.symm.trans hpv'
              injection h5
            exact hcomp.symm

/-- C5: with at least two runs in history, the comparison block compares
the last two entries; every emitted row has a nonzero previous value and
carries the delta `(current - previous) / previous * 100`; a decrease is
classified improved for every metric except throughput keys, where an
increase is; a metric whose previous value is 0 is skipped; and every
metric present in both entries with numeric actuals and a nonzero
previous value is emitted. -/
theorem claim_C5 (hist : List RunEntry) (c p : RunEntry) (rest : List RunEntry)
    (hrev : hist.reverse = c :: p :: rest) :
    comparisonOfHistory hist = runComparisons c p ∧
    (∀ comp ∈ runComparisons c p,
      comp.previous ≠ 0 ∧
      comp.delta = (comp.current - comp.previous) / comp.previous * 100 ∧
      comp.isImproved =
        (if jsIncludes comp.metric "Throughput" then decide (comp.previous < comp.current)
         else decide (comp.current < comp.previous))) ∧
    (∀ key pm, List.lookup key p.metrics = some pm → parseFloat pm.actual = some 0 →
      ∀ comp ∈ runComparisons c p, comp.metric ≠ key) ∧
    (∀ key cm currVal pm prevVal,
      (key, cm) ∈ c.metrics →
      List.lookup key p.metrics = some pm →
      parseFloat cm.actual = some currVal →
      parseFloat pm.actual = some prevVal →
      prevVal ≠ 0 →
      ∃ comp ∈ runComparisons c p,
        comp.metric = key ∧ comp.current = currVal ∧ comp.previous = prevVal) := by
  refine ⟨by rw [comparisonOfHistory, hrev], ?_, ?_, ?_⟩
  · intro comp hmem
    rw [runComparisons, List.mem_filterMap] at hmem
    obtain ⟨kv, hkv, hrow⟩ := hmem
    rw [comparisonRow_eq_some] at hrow
    obtain ⟨pm, currVal, prevVal, hlk, hcv, hpv, hprev, hcomp⟩ := hrow
    subst hcomp
    exact ⟨hprev, rfl, rfl⟩
  · intro key pm hlk hp0 comp hmem hkey
    rw [runComparisons, List.mem_filterMap] at hmem
    obtain ⟨kv, hkv, hrow⟩ := hmem
    rw [comparisonRow_eq_some] at hrow
    obtain ⟨pm', currVal, prevVal, hlk', hcv, hpv, hprev, hcomp⟩ := hrow
    subst hcomp
    have hk : kv.1 = key := hkey
    rw [← hk] at hlk
    have hpm : pm = pm' := by
      have h6 := hlk.symm.trans hlk'
      injection h6
    subst hpm
    rw [hp0] at hpv
    injection hpv with h7
    exact hprev h7.symm
  · intro key cm currVal pm prevVal hmemc hlk hcv hpv hprev
    refine ⟨{ metric := key, current := currVal, previous := prevVal
              delta := (currVal - prevVal) / prevVal * 100
              isImproved :=
                if jsIncludes key "Throughput" then decide (prevVal < currVal)
                else decide (currVal < prevVal) }, ?_, rfl, rfl, rfl⟩
    rw [runComparisons, List.mem_filterMap]
    refine ⟨(key, cm), hmemc, ?_⟩
    rw [comparisonRow_eq_some]
    exact ⟨pm, currVal, prevVal, hlk, hcv, hpv, hprev, rfl⟩

/-- C5 witness: on a two-run history the comparison block compares the
last two entries; p95 rising from 100 to 120 is a regression while
throughput rising from 10 to 12 is an improvement. -/
theorem claim_C5_witness :
    comparisonOfHistory [pRunFix, cRunFix] = runComparisons cRunFix pRunFix ∧
    (runComparisons cRunFix pRunFix).map (fun x => (x.metric, x.isImproved)) =
      [("P95 Response Time (ms)", false), ("Throughput (req/s)", true)] :=
  ⟨(claim_C5 [pRunFix, cRunFix] cRunFix pRunFix [] rfl).1, by decide⟩
